import Mathlib

/-!
Verification of the BugBane fuzz campaign orchestrator
(`bugbane/tools/fuzz/main.py`) against its natural-language specification.

The development shallowly embeds the pure decision logic of the orchestrator:
CPU-core allocation (`limit_cpu_cores`), the truncation-warning check in
`main`, the stop-condition persistence record, the launch loop, the RUNNING
poll loop, and the drain/terminate tail of `main`.  Python integers are
modelled as `Int` (with Python truthiness made explicit) or `Nat` for
durations, fallible collaborators (stats loading, launch exit codes) as
explicit event inputs.
-/

namespace BugBane

/-- Embeds `limit_cpu_cores` (main.py lines 56-65).

```python
fuzz_cores = from_config or 8
max_cpus = min(max_from_args, os.cpu_count() or 1)
return min(fuzz_cores, max_cpus)
```

`from_config` is `Optional[int]`; Python's `or` takes the default both for
`None` and for the falsy value `0`.  `cpuCount` stands for `os.cpu_count()`,
which is `None` when the hardware count is undetectable. -/
def limit_cpu_cores (from_config : Option Int) (max_from_args : Int)
    (cpuCount : Option Int) : Int :=
  let fuzz_cores : Int :=
    match from_config with
    | none => 8
    | some n => if n = 0 then 8 else n
  let hw : Int :=
    match cpuCount with
    | none => 1
    | some c => if c = 0 then 1 else c
  let max_cpus := min max_from_args hw
  min fuzz_cores max_cpus

/-- Embeds the truncation-warning check in `main` (main.py lines 106-110):

```python
cores_wanted = fuzz_config.fuzz_cores
fuzz_cores = limit_cpu_cores(from_config=cores_wanted, max_from_args=args.max_cpus)
if cores_wanted is not None and cores_wanted < fuzz_cores:
    log.warning("limiting number of CPU cores to %d", fuzz_cores)
```

Returns `true` exactly when the warning line is logged. -/
def limitCoresWarning (cores_wanted : Option Int) (max_from_args : Int)
    (cpuCount : Option Int) : Bool :=
  let fuzz_cores := limit_cpu_cores cores_wanted max_from_args cpuCount
  match cores_wanted with
  | none => false
  | some w => w < fuzz_cores

/-- Modelled from the spec: the stats-snapshot value held by the `FuzzStats`
object (the stats classes under `bugbane/modules/stats/fuzz/` are not part of
the provided sources).  Spec §3 StatsSnapshot: cumulative paths/inputs found,
last-new-find timestamp, reported run time, crash count. -/
structure FuzzStats where
  paths : Nat
  lastFindTimestamp : Nat
  runTime : Nat
  crashes : Nat
deriving Repr, DecidableEq

/-- The freshly created stats object produced by `FuzzStatsFactory.create`
before any load has succeeded (main.py line 117): all counters zero. -/
def initialStats : FuzzStats := ⟨0, 0, 0, 0⟩

/-- Modelled from the spec: `StopConditions.met` for the total-run-time
condition (`bugbane/tools/fuzz/stop_conditions.py` is not among the provided
sources).  Spec §4.3: "`total_run_time`: true iff snapshot's reported elapsed
run time ≥ threshold". -/
def met_total_run_time (threshold : Nat) (s : FuzzStats) : Bool :=
  decide (threshold ≤ s.runTime)

/-- One tick of the RUNNING poll loop, as seen by `fuzz_stats.load(stats_dir)`
(main.py line 219): either the stats files are not yet present
(`FileNotFoundError`) or a snapshot is read. -/
inductive TickEvent where
  | loadFail : TickEvent
  | loadOk : FuzzStats → TickEvent
deriving Repr, DecidableEq

/-- Whether a tick's snapshot load succeeded. -/
def isLoadOk : TickEvent → Bool
  | .loadFail => false
  | .loadOk _ => true

/-- Number of successful snapshot loads in a list of tick events. -/
def succCount : List TickEvent → Nat
  | [] => 0
  | .loadFail :: rest => succCount rest
  | .loadOk _ :: rest => succCount rest + 1

/-- Mutable state of the RUNNING loop (main.py lines 211-212):
`stats_print_counter` and the current `fuzz_stats` object. -/
structure LoopState where
  statsPrintCounter : Nat
  fuzzStats : FuzzStats
deriving Repr, DecidableEq

/-- Observable effects of one loop iteration: whether the periodic progress
line was printed, whether the stop condition was evaluated, and whether the
loop broke because the stop condition was met. -/
structure TickObs where
  printedProgress : Bool
  stopEvaluated : Bool
  broke : Bool
deriving Repr, DecidableEq

/-- Embeds one iteration of the RUNNING loop body (main.py lines 214-234):

```python
try:
    fuzz_stats.load(stats_dir)
    stats_print_counter = (stats_print_counter + 1) % 6
    if stats_print_counter == 0:
        log.info(...)
except FileNotFoundError:
    log.debug(...)
else:
    if StopConditions.met(stop_cond_name, fuzz_stats, duration):
        break
```

On `FileNotFoundError` the counter is not incremented (the increment sits
after `load` inside `try`) and the `else` clause is skipped. -/
def stepRunning (met : FuzzStats → Bool) (st : LoopState) (ev : TickEvent) :
    LoopState × TickObs :=
  match ev with
  | .loadFail => (st, ⟨false, false, false⟩)
  | .loadOk s =>
      let c := (st.statsPrintCounter + 1) % 6
      ({ statsPrintCounter := c, fuzzStats := s }, ⟨c == 0, true, met s⟩)

/-- Outcome of running the loop over a finite list of tick events: either the
loop is still iterating (no stop condition met yet) or it broke out because
the stop condition was met. -/
inductive LoopResult where
  | stillRunning : LoopState → LoopResult
  | condMet : LoopState → LoopResult
deriving Repr, DecidableEq

/-- Runs the RUNNING loop (main.py lines 214-234) over a finite list of tick
events, returning the loop outcome. -/
def runLoop (met : FuzzStats → Bool) : LoopState → List TickEvent → LoopResult
  | st, [] => .stillRunning st
  | st, ev :: rest =>
    let r := stepRunning met st ev
    if r.2.broke then .condMet r.1 else runLoop met r.1 rest

/-- Runs the RUNNING loop and collects the per-tick observations, stopping
after the iteration in which the loop breaks. -/
def runTrace (met : FuzzStats → Bool) : LoopState → List TickEvent → List TickObs
  | _, [] => []
  | st, ev :: rest =>
    let r := stepRunning met st ev
    if r.2.broke then [r.2] else r.2 :: runTrace met r.1 rest

/-- Embeds the stop-condition persistence mapping (main.py lines 176-179):

```python
if stop_cond_name == "time_without_finds":
    stop_conditions = {"minutes_without_paths": duration // 60}
else:  # real_run_time
    stop_conditions = {"minutes_run_time": duration // 60}
```
-/
def stop_conditions_record (stop_cond_name : String) (duration : Nat) :
    List (String × Nat) :=
  if stop_cond_name = "time_without_finds" then
    [("minutes_without_paths", duration / 60)]
  else
    [("minutes_run_time", duration / 60)]

/-- The fields `fuzz_config.update_config_vars` adds to the configuration
record at TERMINATED (main.py lines 272-279). -/
structure PersistRecord where
  stopConditions : List (String × Nat)
  fuzzSyncDir : String
  fuzzTimeRealSeconds : Nat
  reproduceSpecs : List String
deriving Repr, DecidableEq

/-- Observable effects of the drain/terminate tail of `main`
(main.py lines 241-281). -/
structure DrainObs where
  finalStatsShown : FuzzStats
  screensDumped : Bool
  gracefulThenForcedKill : Bool
  persisted : PersistRecord
  exitCode : Nat
deriving Repr, DecidableEq

/-- Embeds the drain/terminate tail of `main` (main.py lines 241-281):
recompute `real_duration = int(time()) - start_timestamp`, reload the final
stats falling back to the `deepcopy` of the last in-memory stats on
`FileNotFoundError`, dump tmux screens, kill fuzzers gracefully then
forcefully, persist the updated configuration, and return 0.
`finalLoad` is the outcome of the final `fuzz_stats.load` (main.py line 244):
`none` models `FileNotFoundError`. -/
def drainPhase (stop_conditions : List (String × Nat)) (now start : Nat)
    (finalLoad : Option FuzzStats) (fuzz_stats : FuzzStats)
    (fuzz_sync_dir : String) (reproduce_specs : List String) : DrainObs :=
  let real_duration := now - start
  let final :=
    match finalLoad with
    | none => fuzz_stats
    | some s => s
  { finalStatsShown := final
    screensDumped := true
    gracefulThenForcedKill := true
    persisted :=
      { stopConditions := stop_conditions
        fuzzSyncDir := fuzz_sync_dir
        fuzzTimeRealSeconds := real_duration
        reproduceSpecs := reproduce_specs }
    exitCode := 0 }

/-- How control left the RUNNING loop: the stop condition was met (the
`break` at main.py line 234) or the operator interrupted (the
`KeyboardInterrupt` handler at main.py lines 236-239). -/
inductive LoopExit where
  | condMet : LoopExit
  | interrupted : LoopExit
deriving Repr, DecidableEq

/-- Embeds the `except KeyboardInterrupt` handler together with the shared
fall-through into the drain tail (main.py lines 236-281): on interrupt,
`stop_conditions = {}` and execution proceeds through exactly the same code
as after a normal `break`. -/
def afterRunning (exit : LoopExit) (stop_conditions : List (String × Nat))
    (now start : Nat) (finalLoad : Option FuzzStats) (fuzz_stats : FuzzStats)
    (fuzz_sync_dir : String) (reproduce_specs : List String) : DrainObs :=
  let sc :=
    match exit with
    | .interrupted => []
    | .condMet => stop_conditions
  drainPhase sc now start finalLoad fuzz_stats fuzz_sync_dir reproduce_specs

/-- Embeds the launch loop (main.py lines 190-200):

```python
for tmux_cmd in tmux_cmds:
    exit_code, output = run_interactive_shell_cmd(tmux_cmd)
    if exit_code != 0:
        log.error(...)
        return 1
    ...
```

The input is the list of launch exit codes in command order; the result is
the number of commands actually issued and whether the campaign aborted
(`return 1`). -/
def launchPhase : List Int → Nat × Bool
  | [] => (0, false)
  | code :: rest =>
    if code ≠ 0 then (1, true)
    else
      let r := launchPhase rest
      (r.1 + 1, r.2)

/-- Either the campaign aborted during launch (commands issued, exit code)
without ever entering the RUNNING loop, or the RUNNING loop ran. -/
inductive CampaignPhase where
  | aborted : Nat → Nat → CampaignPhase
  | running : LoopResult → CampaignPhase
deriving Repr, DecidableEq

/-- Embeds the launch phase followed by the RUNNING loop
(main.py lines 190-234): a launch failure returns 1 before the loop. -/
def launchThenRun (codes : List Int) (met : FuzzStats → Bool)
    (st : LoopState) (evs : List TickEvent) : CampaignPhase :=
  let r := launchPhase codes
  if r.2 then .aborted r.1 1 else .running (runLoop met st evs)

section Theorems

/-- Claim C1: whenever `limit_cpu_cores` returns strictly less than the
requested value the program emits a truncation warning; in particular with
requested = 16, admin max = 4, hardware = 32 the allocated count is 4 and the
warning is emitted.  The code evaluates the opposite: at that input the
allocation is indeed truncated to 4, yet `limitCoresWarning` is `false`,
because main.py line 108 tests `cores_wanted < fuzz_cores` instead of
`fuzz_cores < cores_wanted`, contradicting its own log message
"limiting number of CPU cores". -/
theorem c1_truncation_warning_not_emitted :
    limit_cpu_cores (some 16) 4 (some 32) = 4 ∧
    limit_cpu_cores (some 16) 4 (some 32) < 16 ∧
    limitCoresWarning (some 16) 4 (some 32) = false := by
  refine ⟨by decide, by decide, by decide⟩

/-- Claim C3 counterexample: the claim states `limit_cpu_cores` is
non-increasing in each argument (increasing an argument never increases the
result).  At requested = 1 versus requested = 2 with admin max = 8 and
hardware = 8, raising the requested count raises the result from 1 to 2, so
the claim as stated is false. -/
theorem c3_counterexample :
    limit_cpu_cores (some 1) 8 (some 8) < limit_cpu_cores (some 2) 8 (some 8) := by
  decide

/-- Claim C3 (amended): for requested ≥ 1, admin max ≥ 1, hardware ≥ 1,
`limit_cpu_cores` is non-DEcreasing (monotone) in each argument: increasing
any one argument while holding the others fixed never decreases the result. -/
theorem c3_amended_monotone (r r' a a' h h' : Int)
    (hr : 1 ≤ r) (hrr : r ≤ r') (ha : 1 ≤ a) (haa : a ≤ a')
    (hh : 1 ≤ h) (hhh : h ≤ h') :
    limit_cpu_cores (some r) a (some h) ≤ limit_cpu_cores (some r') a (some h) ∧
    limit_cpu_cores (some r) a (some h) ≤ limit_cpu_cores (some r) a' (some h) ∧
    limit_cpu_cores (some r) a (some h) ≤ limit_cpu_cores (some r) a (some h') := by
  simp only [limit_cpu_cores]
  have hr0 : ¬ r = 0 := by omega
  have hr0' : ¬ r' = 0 := by omega
  have hh0 : ¬ h = 0 := by omega
  have hh0' : ¬ h' = 0 := by omega
  simp only [if_neg hr0, if_neg hr0', if_neg hh0, if_neg hh0']
  omega

/-- Witness for the amended claim C3 at a concrete instance. -/
theorem c3_amended_monotone_witness :
    limit_cpu_cores (some 2) 4 (some 8) ≤ limit_cpu_cores (some 3) 4 (some 8) ∧
    limit_cpu_cores (some 2) 4 (some 8) ≤ limit_cpu_cores (some 2) 5 (some 8) ∧
    limit_cpu_cores (some 2) 4 (some 8) ≤ limit_cpu_cores (some 2) 4 (some 9) :=
  c3_amended_monotone 2 3 4 5 8 9 (by decide) (by decide) (by decide) (by decide)
    (by decide) (by decide)

/-- Claim C4: for requested ≥ 1 (or requested absent), admin max ≥ 1 and
hardware ≥ 1, `limit_cpu_cores` returns exactly
`min(requested-or-default-8, admin_max, hardware)` and the result is ≥ 1. -/
theorem c4_min_formula (req : Option Int) (a h : Int)
    (hreq : ∀ r, req = some r → 1 ≤ r) (ha : 1 ≤ a) (hh : 1 ≤ h) :
    limit_cpu_cores req a (some h) = min (req.getD 8) (min a h) ∧
    1 ≤ limit_cpu_cores req a (some h) := by
  have hh0 : ¬ h = 0 := by omega
  cases req with
  | none =>
    simp only [limit_cpu_cores, if_neg hh0, Option.getD, true_and, and_true]
    omega
  | some r =>
    have hr := hreq r rfl
    have hr0 : ¬ r = 0 := by omega
    simp only [limit_cpu_cores, if_neg hh0, if_neg hr0, Option.getD, true_and,
      and_true]
    omega

/-- Witness for claim C4 at a concrete instance. -/
theorem c4_min_formula_witness :
    limit_cpu_cores (some 16) 4 (some 32) = min ((some (16 : Int)).getD 8) (min 4 32) ∧
    1 ≤ limit_cpu_cores (some 16) 4 (some 32) :=
  c4_min_formula (some 16) 4 32 (fun r hr => by cases hr; decide) (by decide)
    (by decide)

/-- Claim C10: `limit_cpu_cores` treats a requested core count of 0 the same
as an absent value: Python's `from_config or 8` falls back to the default 8,
which is then bounded by the admin and hardware limits. -/
theorem c10_zero_requested_is_default (a : Int) (hw : Option Int) :
    limit_cpu_cores (some 0) a hw = limit_cpu_cores none a hw := rfl

/-- Helper: the launch loop issues exactly the commands up to and including
the first one with a non-zero exit code, and aborts. -/
theorem launchPhase_first_failure : ∀ (pre : List Int), (∀ c ∈ pre, c = 0) →
    ∀ (e : Int), e ≠ 0 → ∀ (post : List Int),
    launchPhase (pre ++ e :: post) = (pre.length + 1, true) := by
  intro pre
  induction pre with
  | nil =>
    intro _ e he post
    simp [launchPhase, he]
  | cons c rest ih =>
    intro hpre e he post
    have hc : c = 0 := hpre c (by simp)
    have hrest : ∀ x ∈ rest, x = 0 := fun x hx => hpre x (by simp [hx])
    simp [launchPhase, hc, ih hrest e he post]

/-- Claim C5: if some launch command reports a non-zero exit code (all earlier
ones succeeded), then no later command is issued — exactly
`pre.length + 1` commands run — the RUNNING poll loop is never entered, and
the program returns exit code 1. -/
theorem c5_launch_failure_aborts (pre : List Int) (e : Int) (post : List Int)
    (met : FuzzStats → Bool) (st : LoopState) (evs : List TickEvent)
    (hpre : ∀ c ∈ pre, c = 0) (he : e ≠ 0) :
    launchPhase (pre ++ e :: post) = (pre.length + 1, true) ∧
    launchThenRun (pre ++ e :: post) met st evs
      = .aborted (pre.length + 1) 1 := by
  have hl := launchPhase_first_failure pre hpre e he post
  exact ⟨hl, by simp [launchThenRun, hl]⟩

/-- Witness for claim C5: instance 2 of 4 fails to launch, so only 2 commands
are issued (instances 3 and 4 never start) and the campaign aborts with exit
code 1 before RUNNING. -/
theorem c5_launch_failure_aborts_witness :
    launchPhase ([0] ++ 5 :: [0, 0]) = (2, true) ∧
    launchThenRun ([0] ++ 5 :: [0, 0]) (fun _ => false) ⟨0, initialStats⟩ []
      = .aborted 2 1 :=
  c5_launch_failure_aborts [0] 5 [0, 0] (fun _ => false) ⟨0, initialStats⟩ []
    (fun c hc => by simpa using hc) (by decide)

/-- Claim C6: an operator interrupt during RUNNING routes through exactly the
same drain sequence as a normal stop — the only difference is that the
persisted stop-condition record is empty — and the run exits 0 with the
persisted real duration equal to the wall time elapsed since launch. -/
theorem c6_interrupt_identical_drain (sc : List (String × Nat))
    (now start : Nat) (finalLoad : Option FuzzStats) (fs : FuzzStats)
    (dir : String) (specs : List String) :
    afterRunning .interrupted sc now start finalLoad fs dir specs
      = { drainPhase sc now start finalLoad fs dir specs with
          persisted :=
            { (drainPhase sc now start finalLoad fs dir specs).persisted with
              stopConditions := [] } } ∧
    (afterRunning .interrupted sc now start finalLoad fs dir
        specs).persisted.stopConditions = [] ∧
    (afterRunning .interrupted sc now start finalLoad fs dir specs).exitCode
      = 0 ∧
    (afterRunning .interrupted sc now start finalLoad fs dir
        specs).persisted.fuzzTimeRealSeconds = now - start :=
  ⟨rfl, rfl, rfl, rfl⟩

/-- Claim C7: a poll tick on which the stats load raises `FileNotFoundError`
is a no-op — no progress print, no stop-condition evaluation, no break, state
unchanged — so the loop stays in RUNNING and retries on the next tick, and
the unavailability never produces a non-zero exit (the drain tail always
returns 0). -/
theorem c7_transient_load_failure (met : FuzzStats → Bool) (st : LoopState)
    (evs : List TickEvent) (sc : List (String × Nat)) (now start : Nat)
    (fs : FuzzStats) (dir : String) (specs : List String) :
    stepRunning met st .loadFail = (st, ⟨false, false, false⟩) ∧
    runLoop met st (.loadFail :: evs) = runLoop met st evs ∧
    (drainPhase sc now start none fs dir specs).exitCode = 0 :=
  ⟨rfl, rfl, rfl⟩

/-- Claim C9: if no stats load ever succeeds, the RUNNING loop never
evaluates the stop condition and never breaks on its own — after any number
of failing ticks it is still running with its state unchanged, and every tick
observation is empty (no print, no evaluation, no break). -/
theorem c9_no_load_never_stops (met : FuzzStats → Bool) (st : LoopState)
    (n : Nat) :
    runLoop met st (List.replicate n .loadFail) = .stillRunning st ∧
    runTrace met st (List.replicate n .loadFail)
      = List.replicate n ⟨false, false, false⟩ := by
  induction n with
  | zero => exact ⟨rfl, rfl⟩
  | succ k ih =>
    refine ⟨?_, ?_⟩
    · simpa [List.replicate_succ, runLoop, stepRunning] using ih.1
    · simpa [List.replicate_succ, runTrace, stepRunning] using ih.2

/-- Claim C2 counterexample: with the resolved run-time condition of 60
seconds met, the TERMINATED record's stop-condition entry is
`("minutes_run_time", 1)` — the fixed minutes-based key with the duration in
whole minutes — which differs from `("total_run_time", 60)` (and from the
resolved name with the threshold in seconds). -/
theorem c2_counterexample :
    (afterRunning .condMet (stop_conditions_record "real_run_time" 60) 61 0
        (some initialStats) initialStats "out" []).persisted.stopConditions
      = [("minutes_run_time", 1)] ∧
    ("minutes_run_time", (1 : Nat)) ≠ ("total_run_time", (60 : Nat)) ∧
    ("minutes_run_time", (1 : Nat)) ≠ ("real_run_time", (60 : Nat)) := by
  refine ⟨by decide, by decide, by decide⟩

/-- Claim C2 (amended): when a run-time stop condition (any resolved name
other than `time_without_finds`) with threshold `duration` seconds is met on
a successful poll tick, the loop breaks, and the TERMINATED record's
stop-condition entry is the fixed key `"minutes_run_time"` mapped to
`duration / 60` (the threshold in whole minutes), not the resolved name with
the threshold in seconds. -/
theorem c2_amended (name : String) (duration now start : Nat)
    (met : FuzzStats → Bool) (s0 s : FuzzStats) (dir : String)
    (specs : List String) (hname : name ≠ "time_without_finds")
    (hmet : met s = true) :
    runLoop met ⟨0, s0⟩ [.loadOk s] = .condMet ⟨1, s⟩ ∧
    (afterRunning .condMet (stop_conditions_record name duration) now start
        (some s) s dir specs).persisted.stopConditions
      = [("minutes_run_time", duration / 60)] := by
  constructor
  · simp [runLoop, stepRunning, hmet]
  · simp [afterRunning, drainPhase, stop_conditions_record, hname]

/-- Witness for the amended claim C2: a `real_run_time` condition of 60
seconds met at snapshot elapsed = 61 seconds (using the spec-modelled
total-run-time predicate) breaks the loop, and the persisted record is
`("minutes_run_time", 1)`. -/
theorem c2_amended_witness :
    runLoop (met_total_run_time 60) ⟨0, initialStats⟩
        [.loadOk ⟨5, 30, 61, 0⟩] = .condMet ⟨1, ⟨5, 30, 61, 0⟩⟩ ∧
    (afterRunning .condMet (stop_conditions_record "real_run_time" 60) 61 0
        (some ⟨5, 30, 61, 0⟩) ⟨5, 30, 61, 0⟩ "out" []).persisted.stopConditions
      = [("minutes_run_time", 1)] :=
  c2_amended "real_run_time" 60 61 0 (met_total_run_time 60) initialStats
    ⟨5, 30, 61, 0⟩ "out" [] (by decide) (by decide)

/-- Claim C8 counterexample: with one failing tick followed by five
successful ones, the 6th poll tick does not print a progress line (the
counter only advances on successful loads), refuting "emitted on exactly
every 6th poll tick counting all ticks". -/
theorem c8_counterexample :
    (runTrace (fun _ => false) ⟨0, initialStats⟩
        [.loadFail, .loadOk initialStats, .loadOk initialStats,
         .loadOk initialStats, .loadOk initialStats,
         .loadOk initialStats]).map TickObs.printedProgress
      = [false, false, false, false, false, false] := by
  decide

/-- Helper invariant for the RUNNING loop trace: at each recorded tick, the
progress line is printed iff that tick's load succeeded and the running count
of successful loads (offset by the incoming counter) is a multiple of 6, and
the stop condition is evaluated iff the load succeeded. -/
theorem runTrace_obs (met : FuzzStats → Bool) :
    ∀ (evs : List TickEvent) (st : LoopState) (i : Nat),
      i < (runTrace met st evs).length →
      ((runTrace met st evs).getD i ⟨false, false, false⟩).printedProgress
          = (isLoadOk (evs.getD i .loadFail)
              && ((st.statsPrintCounter + succCount (evs.take (i + 1))) % 6
                    == 0)) ∧
      ((runTrace met st evs).getD i ⟨false, false, false⟩).stopEvaluated
          = isLoadOk (evs.getD i .loadFail) := by
  intro evs
  induction evs with
  | nil =>
    intro st i h
    simp [runTrace] at h
  | cons ev rest ih =>
    intro st i h
    cases ev with
    | loadFail =>
      cases i with
      | zero => simp [runTrace, stepRunning, isLoadOk]
      | succ j =>
        have h' : j < (runTrace met st rest).length := by
          simpa [runTrace, stepRunning] using h
        have hih := ih st j h'
        simpa [runTrace, stepRunning, succCount, List.take_succ_cons] using hih
    | loadOk s =>
      cases hms : met s with
      | false =>
        cases i with
        | zero =>
          simp [runTrace, stepRunning, hms, isLoadOk, succCount]
        | succ j =>
          have h' : j < (runTrace met
              ⟨(st.statsPrintCounter + 1) % 6, s⟩ rest).length := by
            simpa [runTrace, stepRunning, hms] using h
          have hih := ih ⟨(st.statsPrintCounter + 1) % 6, s⟩ j h'
          have harith : ((st.statsPrintCounter + 1) % 6
                + succCount (rest.take (j + 1))) % 6
              = (st.statsPrintCounter + (succCount (rest.take (j + 1)) + 1)) % 6 := by
            omega
          simp only [runTrace, stepRunning, hms, List.take_succ_cons, succCount,
            List.getD_cons_succ, if_neg (Bool.false_ne_true)]
          rw [hih.1, hih.2] at *
          simp [harith]
      | true =>
        cases i with
        | zero =>
          simp [runTrace, stepRunning, hms, isLoadOk, succCount]
        | succ j =>
          exfalso
          simp [runTrace, stepRunning, hms] at h


/-- Claim C8 (amended): during RUNNING, a progress line is emitted on a poll
tick iff that tick's stats load succeeded and the cumulative number of
successful loads so far is a multiple of 6 (≈ every 6th successful load on
the fixed 10-second interval), and the stop condition is evaluated exactly on
the ticks whose load succeeded. -/
theorem c8_amended (met : FuzzStats → Bool) (evs : List TickEvent)
    (s : FuzzStats) (i : Nat) (h : i < (runTrace met ⟨0, s⟩ evs).length) :
    ((runTrace met ⟨0, s⟩ evs).getD i ⟨false, false, false⟩).printedProgress
        = (isLoadOk (evs.getD i .loadFail)
            && (succCount (evs.take (i + 1)) % 6 == 0)) ∧
    ((runTrace met ⟨0, s⟩ evs).getD i ⟨false, false, false⟩).stopEvaluated
        = isLoadOk (evs.getD i .loadFail) := by
  have hobs := runTrace_obs met evs ⟨0, s⟩ i h
  simpa using hobs

/-- Witness for the amended claim C8 at a concrete trace. -/
theorem c8_amended_witness :
    ((runTrace (fun _ => false) ⟨0, initialStats⟩
        [TickEvent.loadOk initialStats]).getD 0
          ⟨false, false, false⟩).printedProgress
        = (isLoadOk ([TickEvent.loadOk initialStats].getD 0 .loadFail)
            && (succCount ([TickEvent.loadOk initialStats].take 1) % 6 == 0)) ∧
    ((runTrace (fun _ => false) ⟨0, initialStats⟩
        [TickEvent.loadOk initialStats]).getD 0
          ⟨false, false, false⟩).stopEvaluated
        = isLoadOk ([TickEvent.loadOk initialStats].getD 0 .loadFail) :=
  c8_amended (fun _ => false) [TickEvent.loadOk initialStats] initialStats 0
    (by decide)

end Theorems

end BugBane
